import Mathlib

/-!
Verification of the token-budgeted truncation core of the repository
(`src/utils/token_utils.py`, plus the record pre-rendering in
`src/tools/search.py`).

Python strings are modelled as Lean `String`s (sequences of unicode
code points); Python's unbounded `int` is modelled as `Int`.  Slicing
`s[:n]`, `str.rfind`, and `sep.join` are given explicit list-based
models below that match CPython's semantics on the inputs involved.
-/

set_option linter.unusedVariables false
set_option maxRecDepth 100000

/-- Python `s[:n]` on a string: the prefix of at most `n` code points. -/
def pyTake (s : String) (n : Nat) : String :=
  String.mk (s.data.take n)

/-- Helper for `str_rfind`: index of the last occurrence of `c`, or `-1`. -/
def rfind_aux (c : Char) : List Char → Int
  | [] => -1
  | x :: xs =>
    let r := rfind_aux c xs
    if 0 ≤ r then r + 1
    else if x = c then 0
    else -1

/-- Python `s.rfind(c)`: highest index of `c` in `s`, or `-1` if absent. -/
def str_rfind (s : String) (c : Char) : Int :=
  rfind_aux c s.data

/-- Python `sep.join(xs)`. -/
def pyJoin (sep : String) : List String → String
  | [] => ""
  | [x] => x
  | x :: xs => x ++ sep ++ pyJoin sep xs

/-- The fixed truncation marker appended by `truncate_text_by_tokens`
(source line 75).  Its 20 code points estimate to 5 tokens. -/
def truncation_marker : String := "\n\n[内容因token限制被截断...]"

/-- `estimate_tokens` (token_utils.py lines 30-44): `len(text) // 4`,
with the explicit empty-string fast path of the source. -/
def estimate_tokens (text : String) : Int :=
  if text = "" then 0 else (text.length : Int) / 4

/-- `truncate_text_by_tokens` (token_utils.py lines 47-80).
The source's word-boundary test `last_space > char_limit * 0.8` compares a
Python int against the float `char_limit * 0.8`; for the integer ranges in
scope this comparison is exactly the rational test
`5 * last_space > 4 * char_limit`, which is the form used here. -/
def truncate_text_by_tokens (text : String) (max_tokens : Int) : String :=
  if text = "" ∨ max_tokens ≤ 0 then ""
  else if estimate_tokens text ≤ max_tokens then text
  else
    let char_limit : Int := max_tokens * 4
    if char_limit < (text.length : Int) then
      let truncated := pyTake text char_limit.toNat
      let last_space : Int := str_rfind truncated ' '
      let truncated2 :=
        if 4 * char_limit < 5 * last_space then pyTake truncated last_space.toNat
        else truncated
      truncated2 ++ truncation_marker
    else text

/-- One element of the list passed to `truncate_search_results`: either a
dict (with the optional keys the code reads) or a non-dict value, which the
code renders via `str(result)` and is modelled by the string it renders to. -/
inductive SearchItem where
  | dict (title content snippet : Option String)
  | txt (s : String)
deriving DecidableEq

/-- The `Union[str, List[dict]]` input of `truncate_search_results`. -/
inductive SearchResults where
  | raw (s : String)
  | items (l : List SearchItem)

/-- Rendering of one list element inside `truncate_search_results`
(token_utils.py lines 106-112): dicts use `result.get('title', '')` and
`result.get('content', '')`; non-dicts become `str(result)`. -/
def renderItem : SearchItem → String
  | .dict title content _ => "## " ++ title.getD "" ++ "\n\n" ++ content.getD ""
  | .txt s => s

/-- The accumulation loop of `truncate_search_results`
(token_utils.py lines 101-127), with the running token total as an
explicit accumulator. -/
def combineResults (max_tokens current_tokens : Int) : List SearchItem → List String
  | [] => []
  | result :: rest =>
    let result_text := renderItem result
    let result_tokens := estimate_tokens result_text
    if max_tokens < current_tokens + result_tokens then
      if 100 < max_tokens - current_tokens then
        [truncate_text_by_tokens result_text (max_tokens - current_tokens)]
      else []
    else
      result_text :: combineResults max_tokens (current_tokens + result_tokens) rest

/-- `truncate_search_results` (token_utils.py lines 83-132) with an
explicit budget. -/
def truncate_search_results (search_results : SearchResults) (max_tokens : Int) : String :=
  match search_results with
  | .raw s => if s = "" then "" else truncate_text_by_tokens s max_tokens
  | .items [] => ""
  | .items l =>
      truncate_text_by_tokens (pyJoin "\n\n" (combineResults max_tokens 0 l)) max_tokens

/-- The record rendering done by `truncated_web_search` in
`src/tools/search.py` (lines 130-135), before the result string reaches
`truncate_search_results`:
`elem.get('title', 'No Title')` and `elem.get('content', elem.get('snippet', 'No content'))`. -/
def render_search_record (title content snippet : Option String) : String :=
  "## " ++ title.getD "No Title" ++ "\n\n" ++ content.getD (snippet.getD "No content")

/-- A configured value for `MAX_TOKEN_LIMIT`.  Modelled from the spec:
`load_yaml_config` lives in `src.config`, outside the given sources; the
spec describes the setting as "a single named integer setting" whose
"invalid (non-numeric) configured values fall back to the default", so a
configured value is an integer or a string. -/
inductive ConfigValue where
  | intVal (n : Int)
  | strVal (s : String)

/-- Outcome of `load_yaml_config("conf.yaml")` followed by the key lookup.
Modelled from the spec: `loadFailure` is any exception during loading;
`loaded none` means the key is absent (so `config.get` yields the default). -/
inductive ConfigLoad where
  | loadFailure
  | loaded (v : Option ConfigValue)

/-- Python `int(s)` on a string, as used by `get_max_token_limit`:
optional surrounding whitespace, optional sign, then decimal digits
(digit-group underscores are not modelled); anything else raises
`ValueError`, modelled as `none`. -/
def pyParseInt (s : String) : Option Int :=
  let digits : List Char → Option Int := fun cs =>
    if cs ≠ [] ∧ cs.all Char.isDigit then
      some ((cs.foldl (fun a c => a * 10 + (c.toNat - 48)) 0 : Nat) : Int)
    else none
  match ((s.data.dropWhile Char.isWhitespace).reverse.dropWhile Char.isWhitespace).reverse with
  | '-' :: rest => (digits rest).map (fun n => -n)
  | '+' :: rest => digits rest
  | cs => digits cs

/-- `get_max_token_limit` (token_utils.py lines 13-27). -/
def get_max_token_limit : ConfigLoad → Int
  | .loadFailure => 100000
  | .loaded none => 100000
  | .loaded (some (.intVal n)) => n
  | .loaded (some (.strVal s)) =>
      match pyParseInt s with
      | some n => n
      | none => 100000

/-- `truncate_search_results` called without an explicit `max_tokens`
(token_utils.py lines 94-95): the budget is read from configuration. -/
def truncate_search_results_defaulted (search_results : SearchResults) (cfg : ConfigLoad) : String :=
  truncate_search_results search_results (get_max_token_limit cfg)

/-- Count of leading whole blocks the spec's greedy pass keeps: a block is
kept while its estimated tokens still fit the remaining budget.  Written
from the spec's description of `truncateResults` (§4.2 b), for comparison
with the source loop `combineResults`. -/
def specFitCount : List Int → Int → Nat
  | [], _ => 0
  | t :: ts, b => if t ≤ b then specFitCount ts (b - t) + 1 else 0

/-- The spec's description of the list pass of `truncateResults` (§4.2 b):
keep whole rendered blocks in input order while the running total fits;
at the first overflowing block include `truncateText(block, remaining)`
exactly when `remaining > 100`; drop every later block. -/
def specAssemble (blocks : List String) (b : Int) : List String :=
  let toks := blocks.map estimate_tokens
  let k := specFitCount toks b
  let rem := b - (toks.take k).sum
  blocks.take k ++
    (if k < blocks.length ∧ 100 < rem then
      [truncate_text_by_tokens (blocks.getD k "") rem]
    else [])

/-! ## Basic facts about the embedded operations -/

lemma estimate_tokens_eq (t : String) : estimate_tokens t = (t.length : Int) / 4 := by
  unfold estimate_tokens
  split
  · rename_i h
    subst h
    rfl
  · rfl

lemma estimate_tokens_empty : estimate_tokens "" = 0 := rfl

lemma estimate_tokens_nonneg (t : String) : 0 ≤ estimate_tokens t := by
  rw [estimate_tokens_eq]
  exact Int.ediv_nonneg (Int.ofNat_nonneg _) (by norm_num)

lemma marker_length : truncation_marker.length = 20 := by decide

lemma pyTake_length_le (s : String) (n : Nat) : (pyTake s n).length ≤ n := by
  show (s.data.take n).length ≤ n
  rw [List.length_take]
  exact min_le_left _ _

lemma pyTake_length_le_self (s : String) (n : Nat) : (pyTake s n).length ≤ s.length := by
  show (s.data.take n).length ≤ s.data.length
  rw [List.length_take]
  exact min_le_right _ _

lemma str_ne_empty_of_length_pos (s : String) (h : 0 < s.length) : s ≠ "" := by
  intro he
  rw [he] at h
  exact absurd h (by decide)

lemma append_marker_ne_empty (x : String) : x ++ truncation_marker ≠ "" := by
  apply str_ne_empty_of_length_pos
  rw [String.length_append, marker_length]
  omega

lemma marker_suffix_append (x : String) :
    truncation_marker.data <:+ (x ++ truncation_marker).data := by
  rw [String.data_append]
  exact List.suffix_append _ _

lemma tt_eq (text : String) (b : Int) :
    truncate_text_by_tokens text b =
      if text = "" ∨ b ≤ 0 then ""
      else if estimate_tokens text ≤ b then text
      else if b * 4 < (text.length : Int) then
        (if 4 * (b * 4) < 5 * str_rfind (pyTake text (b * 4).toNat) ' '
         then pyTake (pyTake text (b * 4).toNat) (str_rfind (pyTake text (b * 4).toNat) ' ').toNat
         else pyTake text (b * 4).toNat) ++ truncation_marker
      else text := rfl

lemma tt_empty (b : Int) : truncate_text_by_tokens "" b = "" := by
  simp [truncate_text_by_tokens]

lemma tt_nonpos (t : String) (b : Int) (hb : b ≤ 0) : truncate_text_by_tokens t b = "" := by
  unfold truncate_text_by_tokens
  rw [if_pos (Or.inr hb)]

lemma tt_noop (t : String) (b : Int) (hb : 0 < b) (h : estimate_tokens t ≤ b) :
    truncate_text_by_tokens t b = t := by
  rw [tt_eq, if_pos h]
  split_ifs with h1
  · rcases h1 with h1 | h1
    · exact h1.symm
    · omega
  · rfl

lemma tt_ne_empty (t : String) (b : Int) (ht : t ≠ "") (hb : 0 < b) :
    truncate_text_by_tokens t b ≠ "" := by
  rw [tt_eq]
  split_ifs with h1 h2 h3 h4
  · rcases h1 with h1 | h1
    · exact absurd h1 ht
    · omega
  · exact ht
  · exact append_marker_ne_empty _
  · exact append_marker_ne_empty _
  · exact ht

lemma tt_token_bound (t : String) (b : Int) (hb : 1 ≤ b) :
    estimate_tokens (truncate_text_by_tokens t b) ≤ b + 5 := by
  have hnn : (0 : Int) ≤ b * 4 := by omega
  have hcast : (((b * 4).toNat : Int)) = b * 4 := Int.toNat_of_nonneg hnn
  rw [tt_eq]
  split_ifs with h1 h2 h3 h4
  · rw [estimate_tokens_empty]; omega
  · omega
  · -- word-boundary back-off branch
    rw [estimate_tokens_eq, String.length_append, marker_length]
    have hp : (pyTake (pyTake t (b * 4).toNat) (str_rfind (pyTake t (b * 4).toNat) ' ').toNat).length
        ≤ (b * 4).toNat :=
      le_trans (pyTake_length_le_self _ _) (pyTake_length_le _ _)
    omega
  · -- hard character cut branch
    rw [estimate_tokens_eq, String.length_append, marker_length]
    have hp : (pyTake t (b * 4).toNat).length ≤ (b * 4).toNat := pyTake_length_le _ _
    omega
  · -- estimate over budget but length within the character limit
    rw [estimate_tokens_eq]
    omega

/-! ## Facts about the list-accumulation pass -/

lemma pyJoin_cons_length (sep : String) (x : String) (xs : List String) :
    x.length ≤ (pyJoin sep (x :: xs)).length := by
  cases xs with
  | nil => simp [pyJoin]
  | cons y ys =>
    show x.length ≤ (x ++ sep ++ pyJoin sep (y :: ys)).length
    rw [String.length_append, String.length_append]
    omega

lemma renderItem_dict_length (t c sn : Option String) :
    5 ≤ (renderItem (.dict t c sn)).length := by
  show 5 ≤ ("## " ++ t.getD "" ++ "\n\n" ++ c.getD "").length
  rw [String.length_append, String.length_append, String.length_append]
  have h1 : ("## " : String).length = 3 := by decide
  have h2 : ("\n\n" : String).length = 2 := by decide
  omega

lemma specAssemble_cons_overflow (x : String) (bs : List String) (b : Int)
    (h : ¬ estimate_tokens x ≤ b) :
    specAssemble (x :: bs) b = if 100 < b then [truncate_text_by_tokens x b] else [] := by
  simp only [specAssemble, List.map_cons, specFitCount, if_neg h, List.take_zero,
    List.sum_nil, List.length_cons, List.getD_cons_zero, List.nil_append, sub_zero]
  simp [Nat.zero_lt_succ]

lemma specAssemble_cons_fit (x : String) (bs : List String) (b : Int)
    (h : estimate_tokens x ≤ b) :
    specAssemble (x :: bs) b = x :: specAssemble bs (b - estimate_tokens x) := by
  simp only [specAssemble, List.map_cons, specFitCount, if_pos h, List.take_succ_cons,
    List.length_cons, List.sum_cons, List.getD_cons_succ, List.cons_append,
    Nat.add_lt_add_iff_right, sub_add_eq_sub_sub]

lemma combineResults_eq_spec : ∀ (l : List SearchItem) (b cur : Int),
    combineResults b cur l = specAssemble (l.map renderItem) (b - cur) := by
  intro l
  induction l with
  | nil =>
    intro b cur
    simp [combineResults, specAssemble, specFitCount]
  | cons x xs ih =>
    intro b cur
    by_cases h : b < cur + estimate_tokens (renderItem x)
    · have h' : ¬ estimate_tokens (renderItem x) ≤ b - cur := by omega
      rw [List.map_cons, specAssemble_cons_overflow _ _ _ h']
      simp only [combineResults, if_pos h]
    · have h' : estimate_tokens (renderItem x) ≤ b - cur := by omega
      rw [List.map_cons, specAssemble_cons_fit _ _ _ h']
      simp only [combineResults, if_neg h]
      rw [ih b (cur + estimate_tokens (renderItem x))]
      have harith : b - (cur + estimate_tokens (renderItem x))
          = b - cur - estimate_tokens (renderItem x) := by ring
      rw [harith]

/-! ## Claims -/

/-- Claim C8: for every budget `b ≤ 0` and every input, both
`truncate_text_by_tokens` and `truncate_search_results` return the empty
string. -/
theorem nonpositive_budget_empty (b : Int) (hb : b ≤ 0) :
    (∀ t, truncate_text_by_tokens t b = "") ∧
    (∀ r, truncate_search_results r b = "") := by
  refine ⟨fun t => tt_nonpos t b hb, fun r => ?_⟩
  cases r with
  | raw s =>
    show (if s = "" then "" else truncate_text_by_tokens s b) = ""
    split_ifs with h
    · rfl
    · exact tt_nonpos s b hb
  | items l =>
    cases l with
    | nil => rfl
    | cons x xs => exact tt_nonpos _ b hb

/-- Witness for C8 at the concrete budget `0`. -/
theorem nonpositive_budget_empty_witness :
    truncate_text_by_tokens "abc" 0 = "" ∧
    truncate_search_results (.items [.dict (some "A") (some "x") none]) 0 = "" :=
  ⟨(nonpositive_budget_empty 0 (by decide)).1 "abc",
   (nonpositive_budget_empty 0 (by decide)).2 (.items [.dict (some "A") (some "x") none])⟩

/-- Claim C9, counterexample: the claim omits the positivity guard on the
budget.  At `t = "abc"`, `b = 0` we have `estimate_tokens t = 0 ≤ b`, yet
the code returns `""`, not `t`. -/
theorem noop_fast_path_counterexample :
    estimate_tokens "abc" ≤ 0 ∧
    truncate_text_by_tokens "abc" 0 = "" ∧
    truncate_text_by_tokens "abc" 0 ≠ "abc" := by decide

/-- Claim C9, amended: for every text `t` and budget `b > 0` with
`estimate_tokens t ≤ b`, `truncate_text_by_tokens t b` returns `t`
unchanged. -/
theorem noop_fast_path (t : String) (b : Int) (hb : 0 < b)
    (h : estimate_tokens t ≤ b) : truncate_text_by_tokens t b = t :=
  tt_noop t b hb h

/-- Witness for the amended C9. -/
theorem noop_fast_path_witness : truncate_text_by_tokens "abcd" 5 = "abcd" :=
  noop_fast_path "abcd" 5 (by decide) (by decide)

/-- Claim C3, counterexample: `truncateText` is not idempotent on texts it
must cut.  For this 45-character text and budget 10, the first pass backs
off to the space at index 39; re-truncating the marked result backs off
further, to the space at index 35, so the second pass changes the string. -/
theorem idempotent_counterexample :
    truncate_text_by_tokens
        (truncate_text_by_tokens "aaaaaaaaaaaaaaaaaaaaaaaaaaaaaaaaaaa bbb ccccc" 10) 10 ≠
      truncate_text_by_tokens "aaaaaaaaaaaaaaaaaaaaaaaaaaaaaaaaaaa bbb ccccc" 10 := by decide

/-- Claim C3, amended: double truncation with the same budget is stable
for already-short strings, i.e. whenever `estimate_tokens t ≤ b`. -/
theorem idempotent_amended (t : String) (b : Int) (h : estimate_tokens t ≤ b) :
    truncate_text_by_tokens (truncate_text_by_tokens t b) b =
      truncate_text_by_tokens t b := by
  by_cases hb : 0 < b
  · rw [tt_noop t b hb h]
    exact tt_noop t b hb h
  · push_neg at hb
    rw [tt_nonpos t b hb, tt_empty]

/-- Witness for the amended C3. -/
theorem idempotent_amended_witness :
    truncate_text_by_tokens (truncate_text_by_tokens "abcd" 5) 5 =
      truncate_text_by_tokens "abcd" 5 :=
  idempotent_amended "abcd" 5 (by decide)

/-- Claim C1: for every input and every budget `b ≥ 1` (large enough to
hold at least one character), the estimated token count of the output of
`truncate_text_by_tokens` and of `truncate_search_results` is at most
`b` plus the estimate of the appended marker; the final
`truncate_text_by_tokens` pass inside `truncate_search_results` enforces
this bound on the joined string as well. -/
theorem truncate_output_token_bound (b : Int) (hb : 1 ≤ b) :
    (∀ t, estimate_tokens (truncate_text_by_tokens t b)
        ≤ b + estimate_tokens truncation_marker) ∧
    (∀ r, estimate_tokens (truncate_search_results r b)
        ≤ b + estimate_tokens truncation_marker) := by
  have hm : estimate_tokens truncation_marker = 5 := by decide
  rw [hm]
  refine ⟨fun t => tt_token_bound t b hb, fun r => ?_⟩
  cases r with
  | raw s =>
    show estimate_tokens (if s = "" then "" else truncate_text_by_tokens s b) ≤ b + 5
    split_ifs with h
    · rw [estimate_tokens_empty]; omega
    · exact tt_token_bound s b hb
  | items l =>
    cases l with
    | nil =>
      show estimate_tokens "" ≤ b + 5
      rw [estimate_tokens_empty]; omega
    | cons x xs => exact tt_token_bound _ b hb

/-- Witness for C1 at budget 1: the bound `1 + 5` is attained exactly. -/
theorem truncate_output_token_bound_witness :
    estimate_tokens (truncate_text_by_tokens "aaaaaaaa" 1)
        ≤ 1 + estimate_tokens truncation_marker ∧
    estimate_tokens (truncate_search_results (.raw "aaaaaaaa") 1)
        ≤ 1 + estimate_tokens truncation_marker :=
  ⟨(truncate_output_token_bound 1 (by decide)).1 "aaaaaaaa",
   (truncate_output_token_bound 1 (by decide)).2 (.raw "aaaaaaaa")⟩

/-- Claim C2, counterexample: a record can be cut (dropped entirely because
the remaining budget is ≤ 100 tokens) without any marker appearing.  With
budget 1 the first block fits exactly, the second record is dropped, and
the output carries no marker — yet with an ample budget both records
appear, so content was cut at budget 1. -/
theorem marker_iff_cut_counterexample :
    truncate_search_results
        (.items [.dict (some "A") (some "x") none, .dict (some "B") (some "y") none]) 1
      = "## A\n\nx" ∧
    ¬ (truncation_marker.data <:+ ("## A\n\nx" : String).data) ∧
    truncate_search_results
        (.items [.dict (some "A") (some "x") none, .dict (some "B") (some "y") none]) 1000
      = "## A\n\nx\n\n## B\n\ny" := by decide

/-- Claim C2, amended: the marker-iff-cut equivalence holds for
`truncate_text_by_tokens`: for a positive budget and an input that does not
itself end in the marker, the output ends with the marker exactly when the
text was cut (output ≠ input).  `truncate_search_results`, however, can drop
whole records with no marker when the remaining budget is ≤ 100 tokens. -/
theorem marker_iff_cut_amended (t : String) (b : Int) (hb : 0 < b)
    (h : ¬ (truncation_marker.data <:+ t.data)) :
    (truncation_marker.data <:+ (truncate_text_by_tokens t b).data) ↔
      truncate_text_by_tokens t b ≠ t := by
  rw [tt_eq]
  split_ifs with h1 h2 h3 h4
  · have ht : t = "" := by
      rcases h1 with h1 | h1
      · exact h1
      · omega
    subst ht
    constructor
    · intro hs
      exact absurd hs h
    · intro hne
      exact absurd rfl hne
  · constructor
    · intro hs
      exact absurd hs h
    · intro hne
      exact absurd rfl hne
  · constructor
    · intro _ heq
      exact h (heq ▸ marker_suffix_append _)
    · intro _
      exact marker_suffix_append _
  · constructor
    · intro _ heq
      exact h (heq ▸ marker_suffix_append _)
    · intro _
      exact marker_suffix_append _
  · constructor
    · intro hs
      exact absurd hs h
    · intro hne
      exact absurd rfl hne

/-- Witness for the amended C2: at `t = "aaaaaaaa"`, `b = 1` the text is
cut and the marker appears. -/
theorem marker_iff_cut_amended_witness :
    (truncation_marker.data <:+ (truncate_text_by_tokens "aaaaaaaa" 1).data) ↔
      truncate_text_by_tokens "aaaaaaaa" 1 ≠ "aaaaaaaa" :=
  marker_iff_cut_amended "aaaaaaaa" 1 (by decide) (by decide)

/-- Claim C4, counterexample: inside `truncate_search_results` a record
with no `title` and no `content` renders as `"## \n\n"` — the empty-string
defaults of `result.get('title', '')` / `result.get('content', '')` — not
with the `"No Title"` / `snippet` / `"No content"` fallbacks the claim
describes, and the `snippet` field is ignored. -/
theorem record_render_counterexample :
    truncate_search_results (.items [.dict none none (some "SNIP")]) 1000 = "## \n\n" ∧
    truncate_search_results (.items [.dict none none (some "SNIP")]) 1000
      ≠ "## No Title\n\nSNIP" := by decide

/-- Claim C4, amended: records reaching `truncate_search_results` render as
`"## {title}\n\n{content}"` with missing fields defaulting to the empty
string; the `"No Title"` / `snippet` / `"No content"` fallbacks belong to
the dispatcher's pre-rendering (`truncated_web_search` in search.py), which
builds the block before the results reach `truncate_search_results`. -/
theorem record_render_amended :
    (∀ (t c sn : Option String) (b : Int), 0 < b →
        estimate_tokens (renderItem (.dict t c sn)) ≤ b →
        truncate_search_results (.items [.dict t c sn]) b =
          "## " ++ t.getD "" ++ "\n\n" ++ c.getD "") ∧
    (∀ (t c sn : Option String),
        render_search_record t c sn =
          "## " ++ t.getD "No Title" ++ "\n\n" ++ c.getD (sn.getD "No content")) := by
  refine ⟨fun t c sn b hb h => ?_, fun t c sn => rfl⟩
  show truncate_text_by_tokens
      (pyJoin "\n\n" (combineResults b 0 [.dict t c sn])) b = _
  simp only [combineResults]
  rw [if_neg (by omega : ¬ b < 0 + estimate_tokens (renderItem (.dict t c sn)))]
  show truncate_text_by_tokens (renderItem (.dict t c sn)) b = _
  rw [tt_noop _ b hb h]
  rfl

/-- Witness for the amended C4. -/
theorem record_render_amended_witness :
    truncate_search_results (.items [.dict (some "T") (some "C") none]) 50 =
      "## " ++ (some "T").getD "" ++ "\n\n" ++ (some "C").getD "" ∧
    render_search_record none none none =
      "## " ++ (none : Option String).getD "No Title" ++ "\n\n"
        ++ (none : Option String).getD ((none : Option String).getD "No content") :=
  ⟨record_render_amended.1 (some "T") (some "C") none 50 (by decide) (by decide),
   record_render_amended.2 none none none⟩

/-- Claim C5, counterexample: a non-empty record list with a positive
budget can still yield the empty string — when the first block alone
overflows the budget and the remaining budget is ≤ 100 tokens, the loop
emits nothing and the final pass leaves `""`. -/
theorem nonempty_counterexample :
    truncate_search_results
        (.items [.dict (some "A") (some (String.mk (List.replicate 210 'x'))) none]) 50
      = "" ∧
    ([SearchItem.dict (some "A") (some (String.mk (List.replicate 210 'x'))) none] ≠ []) ∧
    (0 : Int) < 50 := by
  refine ⟨by decide, by decide, by decide⟩

/-- Claim C5, amended: a non-empty string input with a positive budget
yields a non-empty output; a record list starting with a dict record whose
rendered block fits the budget also yields a non-empty output.  (A list
whose first block overflows a budget ≤ 100 can yield `""`.) -/
theorem nonempty_output_amended :
    (∀ (s : String) (b : Int), s ≠ "" → 0 < b →
        truncate_search_results (.raw s) b ≠ "") ∧
    (∀ (t c sn : Option String) (rest : List SearchItem) (b : Int), 0 < b →
        estimate_tokens (renderItem (.dict t c sn)) ≤ b →
        truncate_search_results (.items (.dict t c sn :: rest)) b ≠ "") := by
  constructor
  · intro s b hs hb
    show (if s = "" then "" else truncate_text_by_tokens s b) ≠ ""
    rw [if_neg hs]
    exact tt_ne_empty s b hs hb
  · intro t c sn rest b hb h
    show truncate_text_by_tokens
        (pyJoin "\n\n" (combineResults b 0 (.dict t c sn :: rest))) b ≠ ""
    simp only [combineResults]
    rw [if_neg (by omega : ¬ b < 0 + estimate_tokens (renderItem (.dict t c sn)))]
    apply tt_ne_empty _ b ?_ hb
    apply str_ne_empty_of_length_pos
    have h1 := pyJoin_cons_length "\n\n" (renderItem (.dict t c sn))
      (combineResults b (0 + estimate_tokens (renderItem (.dict t c sn))) rest)
    have h2 := renderItem_dict_length t c sn
    omega

/-- Witness for the amended C5. -/
theorem nonempty_output_amended_witness :
    truncate_search_results (.raw "hi") 5 ≠ "" ∧
    truncate_search_results (.items [.dict (some "T") (some "C") none]) 50 ≠ "" :=
  ⟨nonempty_output_amended.1 "hi" 5 (by decide) (by decide),
   nonempty_output_amended.2 (some "T") (some "C") none [] 50 (by decide) (by decide)⟩

/-- Claim C6, counterexample: the word-boundary back-off uses a strict
comparison.  Here `maxTokens = 5`, `charLimit = 20`, and the last space of
the 20-character prefix sits exactly at index `16 = 0.8 * charLimit`.  The
claim (`≥`) predicts back-off to the space; the code (`>`) keeps the hard
character cut, so the result ends mid-word in `" bbb"`. -/
theorem backoff_boundary_counterexample :
    truncate_text_by_tokens "aaaaaaaaaaaaaaaa bbbccccc" 5
      = "aaaaaaaaaaaaaaaa bbb" ++ truncation_marker ∧
    str_rfind (pyTake "aaaaaaaaaaaaaaaa bbbccccc" 20) ' ' = 16 ∧
    truncate_text_by_tokens "aaaaaaaaaaaaaaaa bbbccccc" 5
      ≠ "aaaaaaaaaaaaaaaa" ++ truncation_marker := by
  refine ⟨by decide, by decide, by decide⟩

/-- Claim C6, amended: for a text the function must cut
(`estimate_tokens t > maxTokens > 0`), the back-off to the last space of
the `charLimit = 4 * maxTokens` prefix happens exactly when the space
index is strictly greater than `0.8 * charLimit` (as integers,
`5 * lastSpace > 4 * charLimit`); at equality or below, the hard character
cut at `charLimit` is used.  In both cases the marker is appended. -/
theorem backoff_condition_amended (t : String) (b : Int) (hb : 0 < b)
    (hcut : b < estimate_tokens t) :
    truncate_text_by_tokens t b =
      (if 4 * (b * 4) < 5 * str_rfind (pyTake t (b * 4).toNat) ' '
       then pyTake (pyTake t (b * 4).toNat) (str_rfind (pyTake t (b * 4).toNat) ' ').toNat
       else pyTake t (b * 4).toNat) ++ truncation_marker := by
  have hlen : b * 4 < (t.length : Int) := by
    rw [estimate_tokens_eq] at hcut
    omega
  have h1 : ¬ (t = "" ∨ b ≤ 0) := by
    push_neg
    refine ⟨fun he => ?_, by omega⟩
    subst he
    rw [estimate_tokens_empty] at hcut
    omega
  rw [tt_eq, if_neg h1, if_neg (by omega : ¬ estimate_tokens t ≤ b), if_pos hlen]

/-- Witness for the amended C6. -/
theorem backoff_condition_amended_witness :
    truncate_text_by_tokens "aaaaaaaa" 1 =
      (if 4 * ((1 : Int) * 4) < 5 * str_rfind (pyTake "aaaaaaaa" ((1 : Int) * 4).toNat) ' '
       then pyTake (pyTake "aaaaaaaa" ((1 : Int) * 4).toNat)
              (str_rfind (pyTake "aaaaaaaa" ((1 : Int) * 4).toNat) ' ').toNat
       else pyTake "aaaaaaaa" ((1 : Int) * 4).toNat) ++ truncation_marker :=
  backoff_condition_amended "aaaaaaaa" 1 (by decide) (by decide)

/-- Claim C7: for every record list and budget, `truncate_search_results`
realises the spec's greedy pass — whole rendered blocks are appended in
input order while the running total fits, the first overflowing block is
included as `truncateText(block, remaining)` exactly when
`remaining > 100`, and every later record is dropped (`specAssemble`),
with the final safety pass applied to the join. -/
theorem greedy_inclusion_refinement (l : List SearchItem) (b : Int) :
    truncate_search_results (.items l) b =
      truncate_text_by_tokens (pyJoin "\n\n" (specAssemble (l.map renderItem) b)) b := by
  cases l with
  | nil =>
    show "" = truncate_text_by_tokens (pyJoin "\n\n" (specAssemble [] b)) b
    rw [show specAssemble [] b = [] from by simp [specAssemble, specFitCount]]
    rw [show pyJoin "\n\n" [] = "" from rfl, tt_empty]
  | cons x xs =>
    show truncate_text_by_tokens (pyJoin "\n\n" (combineResults b 0 (x :: xs))) b = _
    rw [combineResults_eq_spec (x :: xs) b 0, sub_zero]

/-- Claim C10: when `truncate_search_results` is called without an explicit
budget, the budget comes from the `MAX_TOKEN_LIMIT` setting; a load
failure, a missing key, or a non-numeric string value all fall back to the
default 100000 (no exception is modelled — `get_max_token_limit` is total),
while an integer value is used as-is. -/
theorem default_budget_fallback (r : SearchResults) (s : String)
    (hs : pyParseInt s = none) :
    truncate_search_results_defaulted r .loadFailure
        = truncate_search_results r 100000 ∧
    truncate_search_results_defaulted r (.loaded none)
        = truncate_search_results r 100000 ∧
    truncate_search_results_defaulted r (.loaded (some (.strVal s)))
        = truncate_search_results r 100000 ∧
    (∀ n : Int, truncate_search_results_defaulted r (.loaded (some (.intVal n)))
        = truncate_search_results r n) := by
  refine ⟨rfl, rfl, ?_, fun n => rfl⟩
  show truncate_search_results r
      (match pyParseInt s with
       | some n => n
       | none => 100000) = truncate_search_results r 100000
  rw [hs]

/-- Witness for C10 with the unparsable configured value `"not-a-number"`. -/
theorem default_budget_fallback_witness :
    truncate_search_results_defaulted (.raw "hello")
        (.loaded (some (.strVal "not-a-number")))
      = truncate_search_results (.raw "hello") 100000 :=
  (default_budget_fallback (.raw "hello") "not-a-number" (by decide)).2.2.1
